import Mathlib

/-!
Verification of the Kora rent-reclaim bot core (Discover → Evaluate → Reclaim
pipeline) against its natural-language specification.

The TypeScript core lives in `src/core/RentReclaimer.ts` with pure helpers in
`src/utils/solana.ts`.  The remote ledger (Solana RPC) is modelled as a record
of response functions (`Ledger`): each RPC endpoint is a function from its
request parameters to an `Except String` result, where `.error` models the
promise rejecting (a thrown error) and `.ok` the resolved value.  All code is
translated into pure, executable Lean functions over that oracle.
-/

namespace Kora

/-- Model of `AccountInfo<Buffer>` as consumed by the core: `dataLength`
models `info.data.length` (the only use of the data buffer). -/
structure AccountInfo where
  lamports : Nat
  owner : String
  executable : Bool
  dataLength : Nat
deriving DecidableEq, Repr

/-- One entry of a `getSignaturesForAddress` response: `{signature, blockTime?}`.
`blockTime` is in seconds; `none` models a null/undefined block time. -/
structure SigInfo where
  signature : String
  blockTime : Option Nat
deriving DecidableEq, Repr

/-- A parsed transaction, reduced to the participant account list
(`tx.transaction.message.accountKeys`, as base58 strings); the discovery
loop reads nothing else from it. -/
structure ParsedTx where
  accountKeys : List String
deriving DecidableEq, Repr

/-- The Ledger Gateway (Solana RPC) as a pure response oracle.  `.error`
models a rejected promise / thrown error.  `nowMs` models `Date.now()`
(fixed for the duration of one pipeline invocation). -/
structure Ledger where
  getSignaturesForAddress : String → Nat → Except String (List SigInfo)
  getParsedTransaction : String → Except String (Option ParsedTx)
  getAccountInfo : String → Except String (Option AccountInfo)
  sendTransfer : String → String → Nat → Except String String
  nowMs : Nat

/-- `Config` from `src/types.ts` (the fields the core reads; optional
Telegram/cron/dashboard fields are presentation-surface concerns). -/
structure Config where
  rpcUrl : String
  feePayerPrivateKey : String
  treasuryWallet : String
  minRentThreshold : Nat
  accountAgeThreshold : Nat
deriving DecidableEq, Repr

/-- `SponsoredAccount` from `src/types.ts`. -/
structure SponsoredAccount where
  address : String
  lamports : Nat
  owner : String
  executable : Bool
  dataLength : Nat
  lastActivity : Option Nat
deriving DecidableEq, Repr

/-- `ReclaimReason` enum from `src/types.ts`. -/
inductive ReclaimReason where
  | ACCOUNT_CLOSED
  | ACCOUNT_EMPTY
  | ACCOUNT_INACTIVE
deriving DecidableEq, Repr

/-- `ReclaimableAccount extends SponsoredAccount` from `src/types.ts`. -/
structure ReclaimableAccount extends SponsoredAccount where
  reason : ReclaimReason
  estimatedRent : Nat
deriving DecidableEq, Repr

/-- `ReclaimResult` from `src/types.ts`. -/
structure ReclaimResult where
  success : Bool
  accountAddress : String
  reclaimedAmount : Nat
  signature : Option String
  error : Option String
  timestamp : Nat
deriving DecidableEq, Repr

/-- `RentStats` from `src/types.ts`. -/
structure RentStats where
  totalAccountsMonitored : Nat
  totalRentLocked : Nat
  totalRentReclaimed : Nat
  reclaimableAccounts : Nat
  estimatedReclaimable : Nat
  lastScanTime : Nat
deriving DecidableEq, Repr

/-- The `RentReclaimer` instance state: the decoded signing identity and
treasury (read-only after construction), the config, and the two mutable
in-memory counters (`lifetimeReclaimed`, `lastScanTime`). -/
structure Reclaimer where
  feePayer : String
  treasury : String
  config : Config
  lifetimeReclaimed : Nat
  lastScanTime : Nat
deriving Repr

/-- `SystemProgram.programId` in base58. -/
def systemProgramId : String := "11111111111111111111111111111111"

-- --------------------------------------------------------
-- src/utils/solana.ts
-- --------------------------------------------------------

/-- `fetchAccountInfo` (solana.ts): fetch `AccountInfo` from RPC; a thrown
RPC error is caught, logged, and converted to `null`. -/
def fetchAccountInfo (conn : Ledger) (address : String) : Option AccountInfo :=
  match conn.getAccountInfo address with
  | .ok info => info
  | .error _ => none

/-- `isAccountClosed` (solana.ts): true when the account no longer exists
on-chain (`null` or 0 lamports). -/
def isAccountClosed : Option AccountInfo → Bool
  | none => true
  | some info => info.lamports == 0

/-- `hasEmptyData` (solana.ts): true when the account exists but holds zero
bytes of data. -/
def hasEmptyData : Option AccountInfo → Bool
  | none => false
  | some info => info.dataLength == 0

/-- `hasRecentActivity` (solana.ts): look up the single most recent signature
for the address.  No signatures → `false` (never transacted, inactive).
A falsy block time (null, undefined or 0 — JS truthiness) → `true` (cannot
determine, play it safe).  Otherwise compare the elapsed time against the
day threshold: `daysSince < daysThreshold` means still active.  A thrown
lookup error → `true` (fail-safe: assume active).  The float division
`(now - bt*1000) / 86400000 < days` is modelled by the equivalent exact
integer comparison `now - bt*1000 < days * 86400000`. -/
def hasRecentActivity (conn : Ledger) (address : String) (daysThreshold : Nat) : Bool :=
  match conn.getSignaturesForAddress address 1 with
  | .error _ => true
  | .ok [] => false
  | .ok (s :: _) =>
    match s.blockTime with
    | none => true
    | some bt =>
      if bt = 0 then true
      else decide ((conn.nowMs : Int) - (bt : Int) * 1000 < (daysThreshold : Int) * 86400000)

/-- `closeAccountAndReclaimRent` (solana.ts) result record
`{ success, signature?, error? }`. -/
structure CloseResult where
  success : Bool
  signature : Option String
  error : Option String
deriving DecidableEq, Repr

/-- `closeAccountAndReclaimRent` (solana.ts): re-fetch the account, apply the
three guard clauses (missing account, zero balance, non-system owner), then
submit a transfer of the account's full current balance to the treasury.
Any thrown error (RPC fetch or send/confirm) is caught and surfaces as a
failure result with the error text. -/
def closeAccountAndReclaimRent (conn : Ledger) (accountToClose treasury : String) :
    CloseResult :=
  match conn.getAccountInfo accountToClose with
  | .error msg => { success := false, signature := none, error := some msg }
  | .ok none =>
    { success := false, signature := none
      error := some ("Account does not exist or is already closed.") }
  | .ok (some info) =>
    if info.lamports = 0 then
      { success := false, signature := none
        error := some ("Account already has zero balance.") }
    else if info.owner ≠ systemProgramId then
      { success := false, signature := none
        error := some ("Account is owned by " ++ info.owner ++
          " — needs a program-specific close instruction.") }
    else
      match conn.sendTransfer accountToClose treasury info.lamports with
      | .error msg => { success := false, signature := none, error := some msg }
      | .ok sig => { success := true, signature := some sig, error := none }

/-- The lamports amount carried by the transfer instruction that
`closeAccountAndReclaimRent` submits and confirms — i.e. the amount actually
moved to the treasury: the account's pre-transfer on-ledger balance
(`info.lamports` at transfer time) when the transfer succeeds, 0 when
nothing was moved (guard failure or submission failure). -/
def transferredLamports (conn : Ledger) (accountToClose treasury : String) : Nat :=
  match conn.getAccountInfo accountToClose with
  | .error _ => 0
  | .ok none => 0
  | .ok (some info) =>
    if info.lamports = 0 then 0
    else if info.owner ≠ systemProgramId then 0
    else
      match conn.sendTransfer accountToClose treasury info.lamports with
      | .error _ => 0
      | .ok _ => info.lamports

-- --------------------------------------------------------
-- RentReclaimer.identifyReclaimableAccounts (EVALUATE)
-- --------------------------------------------------------

/-- The body of the per-account loop of `identifyReclaimableAccounts`
(RentReclaimer.ts): fetch the current snapshot, then apply the three ordered
rules.  Rule A (closed): push `{...acct, reason: CLOSED, estimatedRent:
acct.lamports}` when the discovery-time balance meets the threshold.
Rule B (empty data) and Rule C (inactive): push `{...acct, lamports:
live.lamports, reason, estimatedRent: live.lamports}` when the current
balance meets the threshold (and, for C, the activity check fails).  The
`info!` non-null assertion of the source corresponds to the unreachable
`none` branch of the inner match (`isAccountClosed none = true`).  Inside the
source's `try`, `fetchAccountInfo` and `hasRecentActivity` catch their own
errors, so the surrounding `catch` (skip the account) is unreachable. -/
def evaluateAccount (conn : Ledger) (minRent ageDays : Nat) (acct : SponsoredAccount) :
    Option ReclaimableAccount :=
  let info := fetchAccountInfo conn acct.address
  if isAccountClosed info then
    if decide (minRent ≤ acct.lamports) then
      some { toSponsoredAccount := acct, reason := ReclaimReason.ACCOUNT_CLOSED
             estimatedRent := acct.lamports }
    else none
  else
    match info with
    | none => none
    | some live =>
      if hasEmptyData (some live) && decide (minRent ≤ live.lamports) then
        some { toSponsoredAccount := { acct with lamports := live.lamports }
               reason := ReclaimReason.ACCOUNT_EMPTY, estimatedRent := live.lamports }
      else if decide (minRent ≤ live.lamports) then
        if hasRecentActivity conn acct.address ageDays then none
        else
          some { toSponsoredAccount := { acct with lamports := live.lamports }
                 reason := ReclaimReason.ACCOUNT_INACTIVE, estimatedRent := live.lamports }
      else none

/-- `identifyReclaimableAccounts` (RentReclaimer.ts): run every sponsored
account through the three safety checks, in input order, collecting the
accounts that pass.  Reads only the thresholds from the config; never touches
the mutable counters. -/
def identifyReclaimableAccounts (conn : Ledger) (self : Reclaimer)
    (accounts : List SponsoredAccount) : List ReclaimableAccount :=
  accounts.filterMap
    (evaluateAccount conn self.config.minRentThreshold self.config.accountAgeThreshold)

-- --------------------------------------------------------
-- RentReclaimer.getSponsoredAccounts (DISCOVER)
-- --------------------------------------------------------

/-- The zero-balance placeholder record that `getSponsoredAccounts` pushes
when `fetchAccountInfo` returns null (account gone or its fetch errored):
the account is still recorded so it can later be flagged as closed. -/
def missingAccountStub (addr : String) (blockTime : Option Nat) : SponsoredAccount :=
  { address := addr, lamports := 0, owner := "", executable := false
    dataLength := 0, lastActivity := blockTime }

/-- Inner loop of `getSponsoredAccounts` over one parsed transaction's
`accountKeys`: deduplicate by address (`seen`), fetch each new address's
current snapshot, and append either the live snapshot or the zero-balance
stub to `result`.  `sigInfo` is the signature entry the transaction came
from (its `blockTime` becomes `lastActivity`). -/
def collectKeys (conn : Ledger) (sigInfo : SigInfo) :
    List String → List String → List SponsoredAccount →
      List String × List SponsoredAccount
  | [], seen, result => (seen, result)
  | addr :: rest, seen, result =>
    if addr ∈ seen then collectKeys conn sigInfo rest seen result
    else
      match fetchAccountInfo conn addr with
      | none =>
        collectKeys conn sigInfo rest (addr :: seen)
          (result ++ [missingAccountStub addr sigInfo.blockTime])
      | some info =>
        collectKeys conn sigInfo rest (addr :: seen)
          (result ++ [{ address := addr, lamports := info.lamports
                        owner := info.owner, executable := info.executable
                        dataLength := info.dataLength
                        lastActivity := sigInfo.blockTime }])

/-- Outer loop of `getSponsoredAccounts` over the fee payer's recent
signatures: fetch each parsed transaction (skipping it when the fetch throws
or the transaction/account-key list is absent) and fold its account keys
through `collectKeys`. -/
def processSignatures (conn : Ledger) :
    List SigInfo → List String → List SponsoredAccount → List SponsoredAccount
  | [], _, result => result
  | s :: rest, seen, result =>
    match conn.getParsedTransaction s.signature with
    | .error _ => processSignatures conn rest seen result
    | .ok none => processSignatures conn rest seen result
    | .ok (some tx) =>
      let step := collectKeys conn s tx.accountKeys seen result
      processSignatures conn rest step.1 step.2

/-- `getSponsoredAccounts` (RentReclaimer.ts): walk the fee payer's recent
transaction history (window of 100 signatures) and collect every unique
participant account with a best-effort snapshot.  A failure of the top-level
history query is caught and yields the empty list.  (Inside the loop nothing
else throws: parsed-transaction failures are skipped per signature and
snapshot-fetch failures are absorbed by `fetchAccountInfo`.) -/
def getSponsoredAccounts (conn : Ledger) (self : Reclaimer) : List SponsoredAccount :=
  match conn.getSignaturesForAddress self.feePayer 100 with
  | .error _ => []
  | .ok signatures => processSignatures conn signatures [] []

-- --------------------------------------------------------
-- RentReclaimer.reclaimRent (RECLAIM) and getStats
-- --------------------------------------------------------

/-- `reclaimRent` (RentReclaimer.ts): attempt to reclaim rent from a single
account via `closeAccountAndReclaimRent`, build the `ReclaimResult`
(reporting `account.estimatedRent` as `reclaimedAmount` on success, 0 on
failure), and on success add `account.estimatedRent` to the in-memory
`lifetimeReclaimed` counter.  Returns the result together with the updated
instance state.  (`closeAccountAndReclaimRent` catches its own errors, so
the source's outer `catch` — reachable only through a malformed base58
address — is not modelled; it too returns `reclaimedAmount = 0` and leaves
the counter untouched.) -/
def reclaimRent (conn : Ledger) (self : Reclaimer) (account : ReclaimableAccount) :
    ReclaimResult × Reclaimer :=
  let res := closeAccountAndReclaimRent conn account.address self.treasury
  let result : ReclaimResult :=
    { success := res.success
      accountAddress := account.address
      reclaimedAmount := if res.success then account.estimatedRent else 0
      signature := res.signature
      error := res.error
      timestamp := conn.nowMs }
  let self' :=
    if res.success then
      { self with lifetimeReclaimed := self.lifetimeReclaimed + account.estimatedRent }
    else self
  (result, self')

/-- `getStats` (RentReclaimer.ts): pure aggregation of the latest discovery
and evaluation outputs together with the process-lifetime counters. -/
def getStats (self : Reclaimer) (scanned : List SponsoredAccount)
    (reclaimable : List ReclaimableAccount) : RentStats :=
  { totalAccountsMonitored := scanned.length
    totalRentLocked := scanned.foldl (fun s a => s + a.lamports) 0
    totalRentReclaimed := self.lifetimeReclaimed
    reclaimableAccounts := reclaimable.length
    estimatedReclaimable := reclaimable.foldl (fun s a => s + a.estimatedRent) 0
    lastScanTime := self.lastScanTime }

-- --------------------------------------------------------
-- Specification-side definitions
-- --------------------------------------------------------

/-- The eligibility condition of the spec's recent-activity check, stated on
the raw gateway response: the single most-recent-signature lookup succeeds
and returns either no signatures, or a determinable (nonzero) timestamp
whose elapsed time since now is at least `ageDays` days.  A failed lookup or
a missing timestamp falls outside this condition (fail-safe: active). -/
def inactiveLookupCond (conn : Ledger) (address : String) (ageDays : Nat) : Prop :=
  conn.getSignaturesForAddress address 1 = .ok [] ∨
    ∃ s rest bt, conn.getSignaturesForAddress address 1 = .ok (s :: rest) ∧
      s.blockTime = some bt ∧ bt ≠ 0 ∧
      (ageDays : Int) * 86400000 ≤ (conn.nowMs : Int) - (bt : Int) * 1000

def sameExceptLastActivity (a b : SponsoredAccount) : Prop :=
  a.address = b.address ∧ a.lamports = b.lamports ∧ a.owner = b.owner ∧
    a.executable = b.executable ∧ a.dataLength = b.dataLength

def matchesUpToLastActivity (r1 r2 : ReclaimableAccount) : Prop :=
  r1.reason = r2.reason ∧ r1.estimatedRent = r2.estimatedRent ∧
    sameExceptLastActivity r1.toSponsoredAccount r2.toSponsoredAccount

/-- The record the discovery loop pushes the first time it encounters an
address: the live snapshot when the fetch returns one, the zero-balance
placeholder when the fetch returns null (account gone or lookup error). -/
def observedRecord (conn : Ledger) (addr : String) (blockTime : Option Nat) :
    SponsoredAccount :=
  match fetchAccountInfo conn addr with
  | none => missingAccountStub addr blockTime
  | some info =>
    { address := addr, lamports := info.lamports, owner := info.owner
      executable := info.executable, dataLength := info.dataLength
      lastActivity := blockTime }

/-- An address is observed in the discovery window when it is an account key
of some successfully parsed transaction among the fetched signatures —
anywhere in the window, at any key position. -/
def observedInWindow (conn : Ledger) (sigs : List SigInfo) (addr : String) : Prop :=
  ∃ s ∈ sigs, ∃ tx, conn.getParsedTransaction s.signature = .ok (some tx) ∧
    addr ∈ tx.accountKeys

/-- The discovery output contains a zero-balance placeholder for `addr`
(tagged with the block time of the signature under which the address was
first observed). -/
def recordedAsStub (conn : Ledger) (self : Reclaimer) (addr : String) : Prop :=
  ∃ bt, missingAccountStub addr bt ∈ getSponsoredAccounts conn self

/-- The discovery output contains the observation record for `addr` — its
live snapshot or, failing that, the zero-balance placeholder. -/
def recordedObservation (conn : Ledger) (self : Reclaimer) (addr : String) : Prop :=
  ∃ bt, observedRecord conn addr bt ∈ getSponsoredAccounts conn self

-- --------------------------------------------------------
-- Concrete fixtures used by counterexamples and witnesses
-- --------------------------------------------------------

-- Concrete inputs: C1 counterexample

def cexC1conn : Ledger :=
  { getSignaturesForAddress := fun _ _ => .ok []
    getParsedTransaction := fun _ => .ok none
    getAccountInfo := fun _ =>
      .ok (some { lamports := 5, owner := systemProgramId, executable := false
                  dataLength := 0 })
    sendTransfer := fun _ _ _ => .ok ("sig1")
    nowMs := 0 }

def cexC1self : Reclaimer :=
  { feePayer := "FP", treasury := "TREAS"
    config := { rpcUrl := "", feePayerPrivateKey := "", treasuryWallet := "TREAS"
                minRentThreshold := 1000000, accountAgeThreshold := 7 }
    lifetimeReclaimed := 0, lastScanTime := 0 }

def cexC1acct : ReclaimableAccount :=
  { address := "A", lamports := 7, owner := systemProgramId, executable := false
    dataLength := 0, lastActivity := none
    reason := ReclaimReason.ACCOUNT_INACTIVE, estimatedRent := 7 }

-- Concrete inputs: C4 counterexample

def cexC4conn : Ledger :=
  { getSignaturesForAddress := fun _ _ => .ok []
    getParsedTransaction := fun _ => .ok none
    getAccountInfo := fun _ =>
      .ok (some { lamports := 4, owner := systemProgramId, executable := false
                  dataLength := 0 })
    sendTransfer := fun _ _ _ => .ok ("sig2")
    nowMs := 0 }

def cexC4self : Reclaimer :=
  { feePayer := "FP", treasury := "TREAS"
    config := { rpcUrl := "", feePayerPrivateKey := "", treasuryWallet := "TREAS"
                minRentThreshold := 1000000, accountAgeThreshold := 7 }
    lifetimeReclaimed := 0, lastScanTime := 0 }

def cexC4acct : ReclaimableAccount :=
  { address := "B", lamports := 9, owner := systemProgramId, executable := false
    dataLength := 0, lastActivity := none
    reason := ReclaimReason.ACCOUNT_INACTIVE, estimatedRent := 9 }

-- Concrete inputs: C3

def cexC3conn : Ledger :=
  { getSignaturesForAddress := fun _ _ => .ok [{ signature := "s1", blockTime := some 10 }]
    getParsedTransaction := fun _ => .ok (some { accountKeys := ["A"] })
    getAccountInfo := fun _ => .error ("boom")
    sendTransfer := fun _ _ _ => .error ("n")
    nowMs := 0 }

def cexC3self : Reclaimer :=
  { feePayer := "FP", treasury := "TREAS"
    config := { rpcUrl := "", feePayerPrivateKey := "", treasuryWallet := "TREAS"
                minRentThreshold := 1000000, accountAgeThreshold := 7 }
    lifetimeReclaimed := 0, lastScanTime := 0 }

-- Concrete inputs: C3 witness (fetch failure at the second key of the
-- second signature)

def wC3conn : Ledger :=
  { getSignaturesForAddress := fun _ _ =>
      .ok [{ signature := "s1", blockTime := some 10 },
           { signature := "s2", blockTime := some 20 }]
    getParsedTransaction := fun sg =>
      if sg = "s2" then .ok (some { accountKeys := ["A", "B"] })
      else .ok (some { accountKeys := ["A"] })
    getAccountInfo := fun a =>
      if a = "B" then .error ("boom")
      else .ok (some { lamports := 50, owner := "X", executable := false
                       dataLength := 1 })
    sendTransfer := fun _ _ _ => .error ("n")
    nowMs := 0 }

def wC3self : Reclaimer :=
  { feePayer := "FP", treasury := "TREAS"
    config := { rpcUrl := "", feePayerPrivateKey := "", treasuryWallet := "TREAS"
                minRentThreshold := 1000000, accountAgeThreshold := 7 }
    lifetimeReclaimed := 0, lastScanTime := 0 }

-- Concrete inputs: C2 witness (spec scenario 3)

def wC2conn : Ledger :=
  { getSignaturesForAddress := fun _ _ => .ok [{ signature := "s1", blockTime := some 1000 }]
    getParsedTransaction := fun _ => .ok none
    getAccountInfo := fun _ =>
      .ok (some { lamports := 3000000, owner := "Prog", executable := false
                  dataLength := 32 })
    sendTransfer := fun _ _ _ => .error ("n")
    nowMs := 1000 * 1000 + 10 * 86400000 }

def wC2acct : SponsoredAccount :=
  { address := "A", lamports := 3000000, owner := "Prog", executable := false
    dataLength := 32, lastActivity := none }

-- Concrete inputs: C5 witness (spec scenario 1)

def wC5conn : Ledger :=
  { getSignaturesForAddress := fun _ _ => .ok []
    getParsedTransaction := fun _ => .ok none
    getAccountInfo := fun _ => .ok none
    sendTransfer := fun _ _ _ => .error ("n")
    nowMs := 0 }

def wC5acct : SponsoredAccount :=
  { address := "A", lamports := 2000000, owner := "", executable := false
    dataLength := 0, lastActivity := some 5 }

-- Concrete inputs: C6 witness

def wC6conn : Ledger :=
  { getSignaturesForAddress := fun _ _ => .error ("rpc down")
    getParsedTransaction := fun _ => .ok none
    getAccountInfo := fun _ => .ok none
    sendTransfer := fun _ _ _ => .error ("n")
    nowMs := 0 }

def wC6self : Reclaimer :=
  { feePayer := "FP", treasury := "TREAS"
    config := { rpcUrl := "", feePayerPrivateKey := "", treasuryWallet := "TREAS"
                minRentThreshold := 1000000, accountAgeThreshold := 7 }
    lifetimeReclaimed := 0, lastScanTime := 0 }

-- Concrete inputs: C7 counterexample (threshold 0, closed account with 0 balance)

def cexC7conn : Ledger :=
  { getSignaturesForAddress := fun _ _ => .ok []
    getParsedTransaction := fun _ => .ok none
    getAccountInfo := fun _ => .ok none
    sendTransfer := fun _ _ _ => .error ("n")
    nowMs := 0 }

def cexC7self : Reclaimer :=
  { feePayer := "FP", treasury := "TREAS"
    config := { rpcUrl := "", feePayerPrivateKey := "", treasuryWallet := "TREAS"
                minRentThreshold := 0, accountAgeThreshold := 7 }
    lifetimeReclaimed := 0, lastScanTime := 0 }

def cexC7acct : SponsoredAccount :=
  { address := "A", lamports := 0, owner := "", executable := false
    dataLength := 0, lastActivity := none }

-- Concrete inputs: C7 witness

def wC7conn : Ledger :=
  { getSignaturesForAddress := fun _ _ => .ok []
    getParsedTransaction := fun _ => .ok none
    getAccountInfo := fun _ => .ok none
    sendTransfer := fun _ _ _ => .error ("n")
    nowMs := 0 }

def wC7self : Reclaimer :=
  { feePayer := "FP", treasury := "TREAS"
    config := { rpcUrl := "", feePayerPrivateKey := "", treasuryWallet := "TREAS"
                minRentThreshold := 1000000, accountAgeThreshold := 7 }
    lifetimeReclaimed := 0, lastScanTime := 0 }

def wC7acct : SponsoredAccount :=
  { address := "A", lamports := 2000000, owner := "", executable := false
    dataLength := 0, lastActivity := none }

def wC7rec : ReclaimableAccount :=
  { toSponsoredAccount := wC7acct, reason := ReclaimReason.ACCOUNT_CLOSED
    estimatedRent := 2000000 }

-- Concrete inputs: C9 witness

def wC9conn : Ledger :=
  { getSignaturesForAddress := fun _ _ => .ok []
    getParsedTransaction := fun _ => .ok none
    getAccountInfo := fun _ =>
      .ok (some { lamports := 1500000, owner := "X", executable := false
                  dataLength := 0 })
    sendTransfer := fun _ _ _ => .error ("n")
    nowMs := 0 }

def wC9acct : SponsoredAccount :=
  { address := "A", lamports := 999, owner := "X", executable := false
    dataLength := 0, lastActivity := none }

def wC9rec : ReclaimableAccount :=
  { toSponsoredAccount := { wC9acct with lamports := 1500000 }
    reason := ReclaimReason.ACCOUNT_EMPTY, estimatedRent := 1500000 }

-- Concrete inputs: C10 witness

def wC10conn : Ledger :=
  { getSignaturesForAddress := fun _ _ => .ok []
    getParsedTransaction := fun _ => .ok none
    getAccountInfo := fun _ => .ok none
    sendTransfer := fun _ _ _ => .error ("n")
    nowMs := 0 }

def wC10self : Reclaimer :=
  { feePayer := "FP", treasury := "TREAS"
    config := { rpcUrl := "", feePayerPrivateKey := "", treasuryWallet := "TREAS"
                minRentThreshold := 1000000, accountAgeThreshold := 7 }
    lifetimeReclaimed := 0, lastScanTime := 0 }

def wC10a : SponsoredAccount :=
  { address := "A", lamports := 2000000, owner := "", executable := false
    dataLength := 0, lastActivity := some 1 }

def wC10b : SponsoredAccount :=
  { address := "A", lamports := 2000000, owner := "", executable := false
    dataLength := 0, lastActivity := none }

-- --------------------------------------------------------
-- Shared helper lemmas
-- --------------------------------------------------------

set_option maxRecDepth 4000 in
/-- Characterization of `hasRecentActivity = false` (account judged inactive)
in terms of the raw signature-lookup response. -/
theorem hasRecentActivity_eq_false_iff (conn : Ledger) (address : String) (ageDays : Nat) :
    hasRecentActivity conn address ageDays = false ↔
      inactiveLookupCond conn address ageDays := by
  unfold inactiveLookupCond
  cases hq : conn.getSignaturesForAddress address 1 with
  | error e =>
    have hL : hasRecentActivity conn address ageDays = true := by
      simp [hasRecentActivity, hq]
    rw [hL]
    constructor
    · intro h; exact Bool.noConfusion h
    · rintro (h | ⟨s', rest', bt', heq, _⟩)
      · exact Except.noConfusion h
      · exact Except.noConfusion heq
  | ok sigs =>
    cases sigs with
    | nil =>
      have hL : hasRecentActivity conn address ageDays = false := by
        simp [hasRecentActivity, hq]
      rw [hL]
      exact ⟨fun _ => Or.inl rfl, fun _ => rfl⟩
    | cons s rest =>
      cases hb : s.blockTime with
      | none =>
        have hL : hasRecentActivity conn address ageDays = true := by
          simp [hasRecentActivity, hq, hb]
        rw [hL]
        constructor
        · intro h; exact Bool.noConfusion h
        · rintro (h | ⟨s', rest', bt', heq, hbt, _⟩)
          · injection h with h2; exact List.noConfusion h2
          · injection heq with h2
            injection h2 with hs hr
            subst hs
            rw [hb] at hbt; exact Option.noConfusion hbt
      | some bt =>
        by_cases hz : bt = 0
        · have hL : hasRecentActivity conn address ageDays = true := by
            simp [hasRecentActivity, hq, hb, hz]
          rw [hL]
          constructor
          · intro h; exact Bool.noConfusion h
          · rintro (h | ⟨s', rest', bt', heq, hbt, hz', _⟩)
            · injection h with h2; exact List.noConfusion h2
            · injection heq with h2
              injection h2 with hs hr
              subst hs
              rw [hb] at hbt
              injection hbt with h3
              subst h3
              subst hz
              exact absurd rfl hz'
        · have hL : hasRecentActivity conn address ageDays =
              decide ((conn.nowMs : Int) - (bt : Int) * 1000 <
                (ageDays : Int) * 86400000) := by
            simp only [hasRecentActivity, hq, hb]
            rw [if_neg hz]
          rw [hL, decide_eq_false_iff_not, Int.not_lt]
          constructor
          · intro hle
            exact Or.inr ⟨s, rest, bt, rfl, hb, hz, hle⟩
          · rintro (h | ⟨s', rest', bt', heq, hbt, hz', hle⟩)
            · injection h with h2; exact List.noConfusion h2
            · injection heq with h2
              injection h2 with hs hr
              subst hs
              rw [hb] at hbt
              injection hbt with h3
              subst h3
              exact hle

/-- Exhaustive description of the records `evaluateAccount` can produce: a
closed-tier record built from the discovery-time snapshot, or an empty/
inactive-tier record built from the freshly fetched balance, with the
threshold check recorded in each case. -/
theorem evaluateAccount_eq_some_cases (conn : Ledger) (minRent ageDays : Nat)
    (acct : SponsoredAccount) (r : ReclaimableAccount)
    (h : evaluateAccount conn minRent ageDays acct = some r) :
    (r = { toSponsoredAccount := acct, reason := ReclaimReason.ACCOUNT_CLOSED
           estimatedRent := acct.lamports } ∧
      isAccountClosed (fetchAccountInfo conn acct.address) = true ∧
      minRent ≤ acct.lamports) ∨
    (∃ live, fetchAccountInfo conn acct.address = some live ∧ live.lamports ≠ 0 ∧
      minRent ≤ live.lamports ∧
      (r = { toSponsoredAccount := { acct with lamports := live.lamports }
             reason := ReclaimReason.ACCOUNT_EMPTY, estimatedRent := live.lamports } ∨
       r = { toSponsoredAccount := { acct with lamports := live.lamports }
             reason := ReclaimReason.ACCOUNT_INACTIVE, estimatedRent := live.lamports })) := by
  cases hf : fetchAccountInfo conn acct.address with
  | none =>
    simp only [evaluateAccount, hf, isAccountClosed, if_true] at h
    split at h
    next hmin =>
      injection h with h2
      exact Or.inl ⟨h2.symm, by simp [hf, isAccountClosed], by simpa using hmin⟩
    next => exact Option.noConfusion h
  | some live =>
    by_cases hlz : live.lamports = 0
    · simp only [evaluateAccount, hf, isAccountClosed, hlz, beq_self_eq_true, if_true] at h
      split at h
      next hmin =>
        injection h with h2
        exact Or.inl ⟨h2.symm, by simp [hf, isAccountClosed, hlz], by simpa using hmin⟩
      next => exact Option.noConfusion h
    · simp only [evaluateAccount, hf, isAccountClosed, hasEmptyData, beq_iff_eq, hlz,
        if_false, Bool.false_and] at h
      split at h
      next hempty =>
        injection h with h2
        have hmin : minRent ≤ live.lamports := by
          have h3 := (Bool.and_eq_true _ _).mp hempty
          simpa using h3.2
        exact Or.inr ⟨live, rfl, hlz, hmin, Or.inl h2.symm⟩
      next hempty =>
        split at h
        next hmin =>
          split at h
          next => exact Option.noConfusion h
          next =>
            injection h with h2
            exact Or.inr ⟨live, rfl, hlz, by simpa using hmin, Or.inr h2.symm⟩
        next => exact Option.noConfusion h

/-- Per-account step for C10: on inputs equal up to `lastActivity`, the
evaluator either rejects both or accepts both with the same reason and
estimate, the outputs differing at most in the copied `lastActivity`. -/
theorem evaluateAccount_ignores_lastActivity (conn : Ledger) (minRent ageDays : Nat)
    (a b : SponsoredAccount) (hab : sameExceptLastActivity a b) :
    (evaluateAccount conn minRent ageDays a = none ∧
      evaluateAccount conn minRent ageDays b = none) ∨
    (∃ r1 r2, evaluateAccount conn minRent ageDays a = some r1 ∧
      evaluateAccount conn minRent ageDays b = some r2 ∧
      matchesUpToLastActivity r1 r2) := by
  obtain ⟨h1, h2, h3, h4, h5⟩ := hab
  simp only [evaluateAccount, matchesUpToLastActivity, sameExceptLastActivity, h1, h2]
  cases hf : fetchAccountInfo conn b.address <;>
    simp only [hf] <;>
    split_ifs <;>
    first
      | exact Or.inl ⟨rfl, rfl⟩
      | exact Or.inr ⟨_, _, rfl, rfl, rfl, rfl, h1, h2, h3, h4, h5⟩
      | exact Or.inr ⟨_, _, rfl, rfl, rfl, rfl, rfl, rfl, h3, h4, h5⟩

/-- Discovery's inner loop only ever appends to its accumulator: every
record already collected stays in the output. -/
theorem mem_collectKeys (conn : Ledger) (sigInfo : SigInfo) (keys : List String)
    (seen : List String) (result : List SponsoredAccount) (x : SponsoredAccount)
    (hx : x ∈ result) : x ∈ (collectKeys conn sigInfo keys seen result).2 := by
  induction keys generalizing seen result with
  | nil => simpa [collectKeys] using hx
  | cons addr rest ih =>
    simp only [collectKeys]
    split
    · exact ih _ _ hx
    · cases hfa : fetchAccountInfo conn addr with
      | none => exact ih _ _ (List.mem_append_left _ hx)
      | some info => exact ih _ _ (List.mem_append_left _ hx)

/-- Discovery's outer loop only ever appends to its accumulator: every
record already collected stays in the output. -/
theorem mem_processSignatures (conn : Ledger) (sigs : List SigInfo)
    (seen : List String) (result : List SponsoredAccount) (x : SponsoredAccount)
    (hx : x ∈ result) : x ∈ processSignatures conn sigs seen result := by
  induction sigs generalizing seen result with
  | nil => simpa [processSignatures] using hx
  | cons s rest ih =>
    simp only [processSignatures]
    cases conn.getParsedTransaction s.signature with
    | error e => exact ih _ _ hx
    | ok otx =>
      cases otx with
      | none => exact ih _ _ hx
      | some tx => exact ih _ _ (mem_collectKeys _ _ _ _ _ _ hx)

/-- Every newly observed key in one transaction's key list gets its
observation record appended by the inner discovery loop. -/
theorem observed_mem_collectKeys (conn : Ledger) (sigInfo : SigInfo) :
    ∀ (keys seen : List String) (result : List SponsoredAccount) (addr : String),
      addr ∈ keys → addr ∉ seen →
      observedRecord conn addr sigInfo.blockTime ∈
        (collectKeys conn sigInfo keys seen result).2 := by
  intro keys
  induction keys with
  | nil => intro seen result addr hmem _; cases hmem
  | cons k rest ih =>
    intro seen result addr hmem hns
    simp only [collectKeys]
    by_cases hks : k ∈ seen
    · rw [if_pos hks]
      rcases List.mem_cons.mp hmem with rfl | hmem2
      · exact absurd hks hns
      · exact ih seen result addr hmem2 hns
    · rw [if_neg hks]
      by_cases haddr : addr = k
      · subst haddr
        cases hf : fetchAccountInfo conn addr with
        | none =>
          refine mem_collectKeys _ _ _ _ _ _ ?_
          have hrec : observedRecord conn addr sigInfo.blockTime =
              missingAccountStub addr sigInfo.blockTime := by
            simp [observedRecord, hf]
          rw [hrec]
          exact List.mem_append_right _ (List.mem_singleton.mpr rfl)
        | some info =>
          refine mem_collectKeys _ _ _ _ _ _ ?_
          have hrec : observedRecord conn addr sigInfo.blockTime =
              { address := addr, lamports := info.lamports, owner := info.owner
                executable := info.executable, dataLength := info.dataLength
                lastActivity := sigInfo.blockTime } := by
            simp [observedRecord, hf]
          rw [hrec]
          exact List.mem_append_right _ (List.mem_singleton.mpr rfl)
      · have hmem2 : addr ∈ rest := by
          rcases List.mem_cons.mp hmem with rfl | hmem2
          · exact absurd rfl haddr
          · exact hmem2
        have hns2 : addr ∉ k :: seen := by simp [haddr, hns]
        cases hf : fetchAccountInfo conn k with
        | none => exact ih _ _ addr hmem2 hns2
        | some info => exact ih _ _ addr hmem2 hns2

/-- After the inner discovery loop runs, a previously unseen address is
either still unseen or its observation record is already in the output. -/
theorem collectKeys_seen_or_recorded (conn : Ledger) (sigInfo : SigInfo) :
    ∀ (keys seen : List String) (result : List SponsoredAccount) (addr : String),
      addr ∉ seen →
      addr ∉ (collectKeys conn sigInfo keys seen result).1 ∨
        observedRecord conn addr sigInfo.blockTime ∈
          (collectKeys conn sigInfo keys seen result).2 := by
  intro keys
  induction keys with
  | nil => intro seen result addr hns; exact Or.inl (by simpa [collectKeys] using hns)
  | cons k rest ih =>
    intro seen result addr hns
    simp only [collectKeys]
    by_cases hks : k ∈ seen
    · rw [if_pos hks]
      exact ih seen result addr hns
    · rw [if_neg hks]
      by_cases haddr : addr = k
      · subst haddr
        cases hf : fetchAccountInfo conn addr with
        | none =>
          refine Or.inr (mem_collectKeys _ _ _ _ _ _ ?_)
          have hrec : observedRecord conn addr sigInfo.blockTime =
              missingAccountStub addr sigInfo.blockTime := by
            simp [observedRecord, hf]
          rw [hrec]
          exact List.mem_append_right _ (List.mem_singleton.mpr rfl)
        | some info =>
          refine Or.inr (mem_collectKeys _ _ _ _ _ _ ?_)
          have hrec : observedRecord conn addr sigInfo.blockTime =
              { address := addr, lamports := info.lamports, owner := info.owner
                executable := info.executable, dataLength := info.dataLength
                lastActivity := sigInfo.blockTime } := by
            simp [observedRecord, hf]
          rw [hrec]
          exact List.mem_append_right _ (List.mem_singleton.mpr rfl)
      · have hns2 : addr ∉ k :: seen := by simp [haddr, hns]
        cases hf : fetchAccountInfo conn k with
        | none => exact ih _ _ addr hns2
        | some info => exact ih _ _ addr hns2

/-- Every address observed anywhere among the remaining signatures — any key
position of any successfully parsed transaction — and not yet deduplicated
gets an observation record into the discovery output. -/
theorem observed_mem_processSignatures (conn : Ledger) :
    ∀ (sigs : List SigInfo) (seen : List String) (result : List SponsoredAccount)
      (addr : String),
      addr ∉ seen → observedInWindow conn sigs addr →
      ∃ bt, observedRecord conn addr bt ∈ processSignatures conn sigs seen result := by
  intro sigs
  induction sigs with
  | nil =>
    intro seen result addr _ hobs
    obtain ⟨s, hs, _⟩ := hobs
    exact absurd hs (List.not_mem_nil s)
  | cons s rest ih =>
    intro seen result addr hns hobs
    obtain ⟨s2, hs2, tx, htx, haddr⟩ := hobs
    simp only [processSignatures]
    cases hp : conn.getParsedTransaction s.signature with
    | error e =>
      rcases List.mem_cons.mp hs2 with rfl | hrest
      · rw [hp] at htx
        exact Except.noConfusion htx
      · exact ih seen result addr hns ⟨s2, hrest, tx, htx, haddr⟩
    | ok otx =>
      cases otx with
      | none =>
        rcases List.mem_cons.mp hs2 with rfl | hrest
        · rw [hp] at htx
          injection htx with h2
          exact Option.noConfusion h2
        · exact ih seen result addr hns ⟨s2, hrest, tx, htx, haddr⟩
      | some tx0 =>
        rcases List.mem_cons.mp hs2 with rfl | hrest
        · rw [hp] at htx
          injection htx with h2
          injection h2 with h3
          subst h3
          exact ⟨s2.blockTime, mem_processSignatures _ _ _ _ _
            (observed_mem_collectKeys conn s2 tx0.accountKeys seen result addr haddr hns)⟩
        · rcases collectKeys_seen_or_recorded conn s tx0.accountKeys seen result addr hns
            with hseen2 | hrec
          · exact ih _ _ addr hseen2 ⟨s2, hrest, tx, htx, haddr⟩
          · exact ⟨s.blockTime, mem_processSignatures _ _ _ _ _ hrec⟩

-- --------------------------------------------------------
-- Claim theorems
-- --------------------------------------------------------

/-- C1 (counterexample): the claim that a successful `reclaimRent` reports
`reclaimedAmount` equal to the pre-transfer on-ledger balance is false: with
an account whose evaluation-time estimate is 7 but whose on-ledger balance
at transfer time is 5, the transfer moves 5 lamports yet the result reports
`reclaimedAmount = 7`. -/
theorem C1_counterexample :
    (reclaimRent cexC1conn cexC1self cexC1acct).1.success = true ∧
    (reclaimRent cexC1conn cexC1self cexC1acct).1.reclaimedAmount = 7 ∧
    transferredLamports cexC1conn cexC1acct.address cexC1self.treasury = 5 ∧
    (7 : Nat) ≠ 5 :=
  ⟨by decide, by decide, by decide, by decide⟩

/-- C1 (amended): a `ReclaimResult` returned by `reclaimRent` reports
`reclaimedAmount` equal to the account's `estimatedRent` (the evaluation-time
estimate, which can differ from the balance actually moved) when
`success = true`, and 0 when `success = false`. -/
theorem reclaimRent_reports_estimate (conn : Ledger) (self : Reclaimer)
    (a : ReclaimableAccount) :
    (reclaimRent conn self a).1.reclaimedAmount =
      if (reclaimRent conn self a).1.success then a.estimatedRent else 0 := rfl

/-- C2: for an account that currently exists on-ledger (snapshot present
with nonzero balance, the code's own notion of existence), with non-empty
payload and current balance at least `minRent`, the evaluator classifies it
Tier C (inactive, eligible) exactly when the single most-recent-signature
lookup returns no signatures or a determinable timestamp at least `ageDays`
days old; a failed lookup or missing (falsy) timestamp leaves the account
excluded, and no other classification is possible. -/
theorem tierC_characterization (conn : Ledger) (minRent ageDays : Nat)
    (acct : SponsoredAccount) (live : AccountInfo)
    (hfetch : fetchAccountInfo conn acct.address = some live)
    (hexist : live.lamports ≠ 0)
    (hdata : live.dataLength ≠ 0)
    (hbal : minRent ≤ live.lamports) :
    (evaluateAccount conn minRent ageDays acct =
        some { toSponsoredAccount := { acct with lamports := live.lamports }
               reason := ReclaimReason.ACCOUNT_INACTIVE, estimatedRent := live.lamports } ∨
      evaluateAccount conn minRent ageDays acct = none) ∧
    (evaluateAccount conn minRent ageDays acct =
        some { toSponsoredAccount := { acct with lamports := live.lamports }
               reason := ReclaimReason.ACCOUNT_INACTIVE, estimatedRent := live.lamports } ↔
      inactiveLookupCond conn acct.address ageDays) := by
  have hred : evaluateAccount conn minRent ageDays acct =
      if hasRecentActivity conn acct.address ageDays then none
      else
        some { toSponsoredAccount := { acct with lamports := live.lamports }
               reason := ReclaimReason.ACCOUNT_INACTIVE, estimatedRent := live.lamports } := by
    simp [evaluateAccount, hfetch, isAccountClosed, hasEmptyData, hexist, hdata, hbal]
  rw [hred]
  cases hact : hasRecentActivity conn acct.address ageDays with
  | true =>
    rw [if_pos rfl]
    constructor
    · exact Or.inr rfl
    · constructor
      · intro h; exact Option.noConfusion h
      · intro hc
        have h2 := (hasRecentActivity_eq_false_iff conn acct.address ageDays).mpr hc
        rw [hact] at h2
        exact absurd h2 (by simp)
  | false =>
    rw [if_neg (by simp)]
    constructor
    · exact Or.inl rfl
    · constructor
      · intro _
        exact (hasRecentActivity_eq_false_iff conn acct.address ageDays).mp hact
      · intro _; rfl

/-- C2 witness: spec scenario 3 — balance 3,000,000, payload length 32, last
activity 10 days ago, inactivity threshold 7 days → reclaimable with reason
inactive and estimate 3,000,000. -/
theorem tierC_characterization_witness :
    evaluateAccount wC2conn 1000000 7 wC2acct =
      some { toSponsoredAccount := { wC2acct with lamports := 3000000 }
             reason := ReclaimReason.ACCOUNT_INACTIVE, estimatedRent := 3000000 } :=
  (tierC_characterization wC2conn 1000000 7 wC2acct
      { lamports := 3000000, owner := "Prog", executable := false, dataLength := 32 }
      rfl (by decide) (by decide) (by decide)).2.mpr
    (Or.inr ⟨{ signature := "s1", blockTime := some 1000 }, [], 1000, rfl, rfl,
      by decide, by decide⟩)

/-- C3 (counterexample): the claim that an account whose snapshot fetch
fails is skipped from discovery's returned list is false: with a gateway
whose account lookup raises, the discovered account still appears in the
returned list, as a zero-balance placeholder record. -/
theorem C3_counterexample :
    cexC3conn.getAccountInfo ("A") = .error ("boom") ∧
    getSponsoredAccounts cexC3conn cexC3self = [missingAccountStub ("A") (some 10)] :=
  ⟨rfl, by decide⟩

/-- C3 (amended): for every account address whose current-snapshot fetch
raises, wherever that address is observed in the pass (any key position of
any successfully parsed signature in the window), the error is logged and
the account appears in the returned list as a zero-balance placeholder
(`lamports = 0`, empty owner, zero payload) rather than being skipped; and
the pass continues: every address observed in the window is likewise
recorded, with its live snapshot when its fetch succeeds. -/
theorem fetchError_recorded_as_stub (conn : Ledger) (self : Reclaimer)
    (sigs : List SigInfo) (addr : String) (e : String)
    (hsigs : conn.getSignaturesForAddress self.feePayer 100 = .ok sigs)
    (hfail : conn.getAccountInfo addr = .error e)
    (hobs : observedInWindow conn sigs addr) :
    recordedAsStub conn self addr ∧
      ∀ addr2, observedInWindow conn sigs addr2 →
        recordedObservation conn self addr2 := by
  have hout : getSponsoredAccounts conn self = processSignatures conn sigs [] [] := by
    simp only [getSponsoredAccounts, hsigs]
  constructor
  · obtain ⟨bt, hmem⟩ :=
      observed_mem_processSignatures conn sigs [] [] addr (by simp) hobs
    have hrec : observedRecord conn addr bt = missingAccountStub addr bt := by
      simp [observedRecord, fetchAccountInfo, hfail]
    rw [hrec] at hmem
    exact ⟨bt, hout ▸ hmem⟩
  · intro addr2 hobs2
    obtain ⟨bt, hmem⟩ :=
      observed_mem_processSignatures conn sigs [] [] addr2 (by simp) hobs2
    exact ⟨bt, hout ▸ hmem⟩

/-- C3 witness: concrete discovery pass with two signatures in which the
fetch of "B" — observed as the second key of the second signature — fails;
the zero-balance placeholder for "B" is in the returned list. -/
theorem fetchError_recorded_as_stub_witness :
    recordedAsStub wC3conn wC3self ("B") :=
  (fetchError_recorded_as_stub wC3conn wC3self
    [{ signature := "s1", blockTime := some 10 },
     { signature := "s2", blockTime := some 20 }]
    ("B") ("boom") rfl rfl
    ⟨{ signature := "s2", blockTime := some 20 }, by decide,
      { accountKeys := ["A", "B"] }, rfl, by decide⟩).1

/-- C4 (counterexample): the claim that a successful reclaim increases the
lifetime counter by the amount actually moved is false: with estimate 9 and
on-ledger balance 4, the transfer moves 4 lamports but the counter (and
`getStats.totalRentReclaimed`) grows by 9. -/
theorem C4_counterexample :
    (reclaimRent cexC4conn cexC4self cexC4acct).1.success = true ∧
    cexC4self.lifetimeReclaimed = 0 ∧
    (getStats (reclaimRent cexC4conn cexC4self cexC4acct).2 [] []).totalRentReclaimed = 9 ∧
    transferredLamports cexC4conn cexC4acct.address cexC4self.treasury = 4 ∧
    (9 : Nat) ≠ 0 + 4 :=
  ⟨by decide, by decide, by decide, by decide, by decide⟩

/-- C4 (amended): a successful `reclaimRent` increases the process-lifetime
reclaimed-total counter (reported as `totalRentReclaimed` by `getStats`) by
exactly `account.estimatedRent` — the evaluation-time estimate, which can
differ from the balance actually moved — and a failed attempt leaves it
unchanged. -/
theorem lifetime_counter_step (conn : Ledger) (self : Reclaimer) (a : ReclaimableAccount)
    (scanned : List SponsoredAccount) (reclaimable : List ReclaimableAccount) :
    (getStats (reclaimRent conn self a).2 scanned reclaimable).totalRentReclaimed =
      self.lifetimeReclaimed +
        (if (reclaimRent conn self a).1.success then a.estimatedRent else 0) := by
  simp only [getStats, reclaimRent]
  split <;> simp

/-- C5: an input account whose current snapshot is non-existent or has zero
balance is classified Tier A (closed) with estimate equal to the
discovery-time balance exactly when that historical balance meets
`minRent`; otherwise it is excluded. -/
theorem closed_iff_threshold (conn : Ledger) (minRent ageDays : Nat)
    (acct : SponsoredAccount)
    (h : isAccountClosed (fetchAccountInfo conn acct.address) = true) :
    evaluateAccount conn minRent ageDays acct =
      if minRent ≤ acct.lamports then
        some { toSponsoredAccount := acct, reason := ReclaimReason.ACCOUNT_CLOSED
               estimatedRent := acct.lamports }
      else none := by
  simp only [evaluateAccount, h, if_true, decide_eq_true_eq]

/-- C5 witness: spec scenario 1 — closed account with last-known balance
2,000,000 under threshold 1,000,000 → reclaimable, reason closed, estimate
2,000,000. -/
theorem closed_iff_threshold_witness :
    evaluateAccount wC5conn 1000000 7 wC5acct =
      some { toSponsoredAccount := wC5acct, reason := ReclaimReason.ACCOUNT_CLOSED
             estimatedRent := 2000000 } := by
  rw [closed_iff_threshold wC5conn 1000000 7 wC5acct rfl]
  decide

/-- C6: if the top-level signature-history query of discovery fails,
`getSponsoredAccounts` returns the empty list (and, being a total function,
raises nothing). -/
theorem discovery_fails_empty (conn : Ledger) (self : Reclaimer) (e : String)
    (h : conn.getSignaturesForAddress self.feePayer 100 = .error e) :
    getSponsoredAccounts conn self = [] := by
  simp only [getSponsoredAccounts, h]

/-- C6 witness: concrete gateway whose history query fails → empty
discovery result. -/
theorem discovery_fails_empty_witness :
    getSponsoredAccounts wC6conn wC6self = [] :=
  discovery_fails_empty wC6conn wC6self ("rpc down") rfl

/-- C7 (counterexample): the claim that every produced record satisfies
`estimatedRent > 0` under every configuration is false: with
`minRentThreshold = 0`, a closed account whose discovery-time balance is 0
is classified reclaimable with `estimatedRent = 0`. -/
theorem C7_counterexample :
    (identifyReclaimableAccounts cexC7conn cexC7self [cexC7acct]).map
        (fun r => r.estimatedRent) = [0] := by
  decide

/-- C7 (amended): every record produced by `identifyReclaimableAccounts`
satisfies `estimatedRent ≥ minRentThreshold`, and whenever the configured
threshold is positive (as in any realistic configuration, default
1,000,000) also `estimatedRent > 0`. -/
theorem estimatedRent_meets_threshold (conn : Ledger) (self : Reclaimer)
    (r : ReclaimableAccount) (accounts : List SponsoredAccount)
    (h : r ∈ identifyReclaimableAccounts conn self accounts) :
    self.config.minRentThreshold ≤ r.estimatedRent ∧
      (0 < self.config.minRentThreshold → 0 < r.estimatedRent) := by
  obtain ⟨a, _, ha⟩ := List.mem_filterMap.mp h
  have hle : self.config.minRentThreshold ≤ r.estimatedRent := by
    rcases evaluateAccount_eq_some_cases _ _ _ _ _ ha with
      ⟨hr, _, hmin⟩ | ⟨live, _, _, hmin, hr | hr⟩ <;> subst hr <;> exact hmin
  exact ⟨hle, fun hpos => lt_of_lt_of_le hpos hle⟩

/-- C7 witness: with threshold 1,000,000, a produced record carries
`estimatedRent = 2,000,000 ≥ threshold > 0`. -/
theorem estimatedRent_meets_threshold_witness :
    wC7self.config.minRentThreshold ≤ wC7rec.estimatedRent ∧
      (0 < wC7self.config.minRentThreshold → 0 < wC7rec.estimatedRent) :=
  estimatedRent_meets_threshold wC7conn wC7self wC7rec [wC7acct] (by decide)

/-- C8: evaluation depends only on the ledger responses and the immutable
configuration — mutating the instance's mutable counters (the only state a
first run can change) leaves the output list identical, so running
`evaluate` twice on the same input with unchanged ledger responses yields
identical reclaimable lists: same accounts, reasons, estimates, order. -/
theorem evaluate_idempotent (conn : Ledger) (self : Reclaimer)
    (accounts : List SponsoredAccount) (x y : Nat) :
    identifyReclaimableAccounts conn
        { self with lifetimeReclaimed := x, lastScanTime := y } accounts =
      identifyReclaimableAccounts conn self accounts := rfl

/-- C9: every record produced by the evaluator has `lamports` equal to
`estimatedRent`; for reason closed both keep the discovery-time snapshot
balance, while for empty-payload and inactive both are the freshly
re-fetched current balance. -/
theorem lamports_eq_estimate (conn : Ledger) (minRent ageDays : Nat)
    (acct : SponsoredAccount) (r : ReclaimableAccount)
    (h : evaluateAccount conn minRent ageDays acct = some r) :
    r.lamports = r.estimatedRent ∧
    (r.reason = ReclaimReason.ACCOUNT_CLOSED →
      r.lamports = acct.lamports ∧ r.estimatedRent = acct.lamports) ∧
    (r.reason ≠ ReclaimReason.ACCOUNT_CLOSED →
      ∃ live, fetchAccountInfo conn acct.address = some live ∧
        r.lamports = live.lamports ∧ r.estimatedRent = live.lamports) := by
  rcases evaluateAccount_eq_some_cases _ _ _ _ _ h with
    ⟨hr, _, _⟩ | ⟨live, hf, _, _, hr | hr⟩ <;> subst hr
  · exact ⟨rfl, fun _ => ⟨rfl, rfl⟩, fun hne => absurd rfl hne⟩
  · exact ⟨rfl, fun hc => ReclaimReason.noConfusion hc, fun _ => ⟨live, hf, rfl, rfl⟩⟩
  · exact ⟨rfl, fun hc => ReclaimReason.noConfusion hc, fun _ => ⟨live, hf, rfl, rfl⟩⟩

/-- C9 witness: a concrete empty-payload record with both fields equal to
the re-fetched balance 1,500,000. -/
theorem lamports_eq_estimate_witness :
    wC9rec.lamports = wC9rec.estimatedRent :=
  (lamports_eq_estimate wC9conn 1000000 7 wC9acct wC9rec (by decide)).1

/-- C10: on two input lists identical except for `lastActivity`, with the
same ledger responses, the evaluator selects the same accounts with the same
reasons and estimates; outputs differ at most in the copied `lastActivity`
field. -/
theorem identify_ignores_lastActivity (conn : Ledger) (self : Reclaimer)
    (as bs : List SponsoredAccount) (h : List.Forall₂ sameExceptLastActivity as bs) :
    List.Forall₂ matchesUpToLastActivity
      (identifyReclaimableAccounts conn self as)
      (identifyReclaimableAccounts conn self bs) := by
  unfold identifyReclaimableAccounts
  induction h with
  | nil => simp
  | cons hab htail ih =>
    rcases evaluateAccount_ignores_lastActivity conn self.config.minRentThreshold
        self.config.accountAgeThreshold _ _ hab with ⟨hna, hnb⟩ | ⟨r1, r2, ha, hb, hr⟩
    · simpa [List.filterMap_cons, hna, hnb] using ih
    · simp only [List.filterMap_cons, ha, hb]
      exact List.Forall₂.cons hr ih

/-- C10 witness: two singleton inputs differing only in `lastActivity`
produce matching outputs. -/
theorem identify_ignores_lastActivity_witness :
    List.Forall₂ matchesUpToLastActivity
      (identifyReclaimableAccounts wC10conn wC10self [wC10a])
      (identifyReclaimableAccounts wC10conn wC10self [wC10b]) :=
  identify_ignores_lastActivity wC10conn wC10self [wC10a] [wC10b]
    (List.Forall₂.cons ⟨rfl, rfl, rfl, rfl, rfl⟩ List.Forall₂.nil)

end Kora
